import Mathlib

/-!
Shallow embedding of `src/packages/instantsearch.js/src/middlewares/createInsightsMiddleware.ts`.

The middleware is single-threaded and callback-driven; we model it by explicit
state passing.  JavaScript objects become structures, optional/undefined string
values become `Option String`, and JavaScript truthiness of a string value
(`undefined`, `null` and the empty string are falsy) becomes the `truthy`
predicate below.  Effects on collaborators (the search helper, the hosting
instance, the analytics client) are recorded in explicit counters and logs so
that frame properties (which notification paths fired, how many searches were
scheduled) are provable.
-/

namespace InsightsMiddleware

/-- JavaScript truthiness of an optional string: `undefined` and the empty
string are falsy, every other string is truthy. -/
def truthy : Option String → Bool
  | none => false
  | some s => s != ""

/-- The slice of the search session parameters the middleware touches
(`userToken`, `clickAnalytics`), plus an opaque remainder `other` standing for
every other search parameter, which object spreads preserve. -/
structure SearchState where
  userToken : Option String
  clickAnalytics : Option Bool
  other : List (String × String)
  deriving Repr, DecidableEq

/-- The search session collaborator (the algoliasearch helper): its live
`state`, plus instrumentation counters: `notifyCount` counts invocations of the
generic change-notification path (`setState`), `overrideCount` counts
invocations of the non-notifying override path
(`overrideStateWithoutTriggeringChangeEvent`). -/
structure Helper where
  state : SearchState
  notifyCount : Nat
  overrideCount : Nat
  deriving Repr, DecidableEq

/-- Source: `helper.overrideStateWithoutTriggeringChangeEvent(newState)` —
writes the state without firing the change event. -/
def overrideStateWithoutTriggeringChangeEvent (h : Helper) (s : SearchState) : Helper :=
  { h with state := s, overrideCount := h.overrideCount + 1 }

/-- Source: `helper.setState(newState)` — writes the state through the generic
change-notification path. -/
def setState (h : Helper) (s : SearchState) : Helper :=
  { h with state := s, notifyCount := h.notifyCount + 1 }

/-- The snapshot `initialParameters` captured at `started()`:
`{ userToken: helper.state.userToken, clickAnalytics: helper.state.clickAnalytics }`. -/
structure Snapshot where
  userToken : Option String
  clickAnalytics : Option Bool
  deriving Repr, DecidableEq

/-- An insights event as produced by widgets (`InsightsEvent` in the source).
`insightsMethod` is optional; `payload` is kept opaque as a string. -/
structure InsightsEvent where
  insightsMethod : Option String
  payload : String
  widgetType : String
  eventType : String
  deriving Repr, DecidableEq

/-- The observable effects of one invocation of the dispatch gateway:
which events were delegated to the caller-supplied `onEvent` handler (the
handler also receives the raw client reference), how many non-fatal warnings
were emitted through the `warning` utility, and which `(method, payload)`
invocations reached the analytics client binding. -/
structure DispatchResult where
  onEventCalls : List InsightsEvent
  warningCount : Nat
  clientCalls : List (String × String)
  deriving Repr, DecidableEq

/-- The value held by the mutable `sendEventToInsights` slot on the hosting
instance: either the no-op installed at teardown, or the gateway closure
installed at `started()`. -/
inductive EventSlot where
  | noopSlot
  | gateway
  deriving Repr, DecidableEq

/-- The hosting search instance: the helper it exposes, the number of
`scheduleSearch()` requests made so far, and the `sendEventToInsights` slot. -/
structure InstanceState where
  helper : Helper
  scheduleSearchCount : Nat
  sendEventSlot : EventSlot
  deriving Repr, DecidableEq

/-- Source: `instantSearchInstance.scheduleSearch()`. -/
def scheduleSearch (inst : InstanceState) : InstanceState :=
  { inst with scheduleSearchCount := inst.scheduleSearchCount + 1 }

/-- Source, lines 124-131: `setUserTokenToSearch` overrides the state with the
given token without triggering the change event, then schedules one search. -/
def setUserTokenToSearch (inst : InstanceState) (t : Option String) : InstanceState :=
  scheduleSearch
    { inst with
      helper := overrideStateWithoutTriggeringChangeEvent inst.helper
        { inst.helper.state with userToken := t } }

/-- Modelled from the spec, section 6 (the analytics client is an external
collaborator, not code under src/): the client holds a current user token, set
by explicit `setUserToken` calls, and a single `onUserTokenChange` listener
slot.  Registration with `immediate: true` delivers the current token to the
listener at registration time when one is set. -/
structure ClientState where
  currentToken : Option String
  listener : Bool
  deriving Repr, DecidableEq

/-- The middleware-internal variables `helper` and `initialParameters`: both
are unassigned until `started()` runs; `unsubscribe()` restores only when both
are set (source line 183: `if (helper && initialParameters)`). -/
structure MWInternal where
  helperCaptured : Bool
  initialParameters : Option Snapshot
  deriving Repr, DecidableEq

/-- The whole mutable world the middleware acts on. -/
structure World where
  inst : InstanceState
  client : ClientState
  mw : MWInternal
  deriving Repr, DecidableEq

/-- The token signals available when `started()` runs: whether a real
analytics client is configured (`hasInsightsClient`), the token captured by the
`getUserToken` callback (`userTokenBeforeInit`), the token recovered from the
pre-load queue (`queuedUserToken`), and the anonymous token read from local
persisted analytics state (`getInsightsAnonymousUserTokenInternal`). -/
structure StartedEnv where
  hasInsightsClient : Bool
  userTokenBeforeInit : Option String
  queuedUserToken : Option String
  anonymousUserToken : Option String
  deriving Repr, DecidableEq

/-- Source, lines 75-91: scan of the pre-load queue.  The queue, when present,
is a list of `[method, ...args]` entries; the code copies it, reverses it, and
takes the payload (index 1) of the first entry whose method is
`setUserToken`; no match, or an absent queue, yields no token.  The `find`
utility (repo code not under src/) is modelled from the spec as a first-match
scan. -/
def scanQueue (queue : Option (List (List String))) : Option String :=
  match queue with
  | none => none
  | some q =>
    match q.reverse.find? (fun e => e.head? == some "setUserToken") with
    | none => none
    | some e => e.get? 1

/-- The `insightsClient` option as constrained by the TypeScript surface:
a real client (carrying its optional pre-load queue), an explicit `null`, or
genuinely absent (`undefined`). -/
inductive InsightsClientOption where
  | present (queue : Option (List (List String)))
  | nullClient
  | absent
  deriving Repr, DecidableEq

/-- Source, lines 41-60 and 75-91: construction-time validation and queue
scan.  Throws when the option is absent (`_insightsClient !== null &&
!_insightsClient`); explicit `null` selects the disabled mode in which the
no-op client is substituted (`hasInsightsClient = false`).  Returns
`(hasInsightsClient, queuedUserToken)`. -/
def createInsightsMiddleware (opt : InsightsClientOption) :
    Except String (Bool × Option String) :=
  match opt with
  | .absent => .error "The insightsClient option is required. To disable, set it to null."
  | .nullClient => .ok (false, none)
  | .present q => .ok (true, scanQueue q)

/-- Source, lines 63-70: credential extraction check.  `dev` models the
build-time `__DEV__` flag; the throw happens only when `__DEV__ && !(appId &&
apiKey)` — the code comment defers to the analytics client own error in
production builds. -/
def checkCredentials (dev : Bool) (appId apiKey : Option String) : Except String Unit :=
  if dev && !(truthy appId && truthy apiKey) then
    .error "insights middleware: could not extract Algolia credentials from searchClient"
  else
    .ok ()

/-- Source, lines 108-179: the `started()` lifecycle hook.
In order: capture the snapshot; override the state with `clickAnalytics:
true` (no notification) and schedule a search; when a real client is present
and the anonymous token is truthy, apply it via `setUserTokenToSearch`;
forward `setUserToken` to the client with `userTokenBeforeInit` taking
precedence over `queuedUserToken`; register the `onUserTokenChange` listener
with immediate delivery (which applies the client current token to the session
when one is set — see `ClientState`); install the dispatch gateway.  When the
configured client is `null`, every client invocation hits the substituted
no-op, so the client state is untouched and nothing is delivered. -/
def runStarted (env : StartedEnv) (w : World) : World :=
  let helper0 := w.inst.helper
  let snap : Snapshot := ⟨helper0.state.userToken, helper0.state.clickAnalytics⟩
  let helper1 := overrideStateWithoutTriggeringChangeEvent helper0
    { helper0.state with clickAnalytics := some true }
  let inst1 := scheduleSearch { w.inst with helper := helper1 }
  let inst2 :=
    if env.hasInsightsClient && truthy env.anonymousUserToken then
      setUserTokenToSearch inst1 env.anonymousUserToken
    else inst1
  let client1 :=
    if env.hasInsightsClient then
      (if truthy env.userTokenBeforeInit then
        { w.client with currentToken := env.userTokenBeforeInit }
      else if truthy env.queuedUserToken then
        { w.client with currentToken := env.queuedUserToken }
      else w.client)
    else w.client
  let inst3 :=
    if env.hasInsightsClient && truthy client1.currentToken then
      setUserTokenToSearch inst2 client1.currentToken
    else inst2
  let client2 :=
    if env.hasInsightsClient then { client1 with listener := true } else client1
  let inst4 := { inst3 with sendEventSlot := EventSlot.gateway }
  { inst := inst4, client := client2,
    mw := { helperCaptured := true, initialParameters := some snap } }

/-- Source, lines 153-178: the gateway closure installed as
`sendEventToInsights`.  With a caller-supplied `onEvent` the event is delegated
(together with the raw client reference) and no validation runs; otherwise a
truthy `insightsMethod` and a truthy session `userToken` are required, each
missing one producing exactly one warning and a dropped event; when both hold
the client binding is invoked once with `(insightsMethod, payload)`. -/
def dispatchEvent (onEventPresent : Bool) (st : SearchState) (e : InsightsEvent) :
    DispatchResult :=
  if onEventPresent then
    { onEventCalls := [e], warningCount := 0, clientCalls := [] }
  else if truthy e.insightsMethod then
    (if truthy st.userToken then
      { onEventCalls := [], warningCount := 0,
        clientCalls := [(e.insightsMethod.getD "", e.payload)] }
    else
      { onEventCalls := [], warningCount := 1, clientCalls := [] })
  else
    { onEventCalls := [], warningCount := 1, clientCalls := [] }

/-- Invoking whatever currently sits in the `sendEventToInsights` slot.  The
no-op installed at teardown has no effect at all; the gateway behaves as
`dispatchEvent` on the live helper state. -/
def invokeSlot (slot : EventSlot) (onEventPresent : Bool) (st : SearchState)
    (e : InsightsEvent) : DispatchResult :=
  match slot with
  | .noopSlot => { onEventCalls := [], warningCount := 0, clientCalls := [] }
  | .gateway => dispatchEvent onEventPresent st e

/-- Source, lines 180-191: the `unsubscribe()` lifecycle hook.  Clears the
`onUserTokenChange` listener on the client (a no-op in disabled mode),
replaces the dispatch slot with the no-op, and, only when both the captured
helper reference and the snapshot exist, restores the snapshot through
`setState` (the notifying path) and schedules one search. -/
def runUnsubscribe (hasInsightsClient : Bool) (w : World) : World :=
  let client1 :=
    if hasInsightsClient then { w.client with listener := false } else w.client
  let inst1 := { w.inst with sendEventSlot := EventSlot.noopSlot }
  match w.mw.helperCaptured, w.mw.initialParameters with
  | true, some snap =>
    let helper1 := setState inst1.helper
      { inst1.helper.state with
        userToken := snap.userToken, clickAnalytics := snap.clickAnalytics }
    { inst := scheduleSearch { inst1 with helper := helper1 },
      client := client1, mw := w.mw }
  | _, _ => { inst := inst1, client := client1, mw := w.mw }

end InsightsMiddleware

namespace InsightsMiddleware

/-- A sample pre-started world used by the closed witnesses below. -/
def sampleWorld : World :=
  { inst :=
      { helper :=
          { state := { userToken := some "u0", clickAnalytics := some false, other := [] },
            notifyCount := 0, overrideCount := 0 },
        scheduleSearchCount := 0, sendEventSlot := EventSlot.noopSlot },
    client := { currentToken := none, listener := false },
    mw := { helperCaptured := false, initialParameters := none } }

@[simp] lemma truthy_none : truthy none = false := rfl

@[simp] lemma truthy_some (s : String) : truthy (some s) = (s != "") := rfl

lemma find?_append_of_none {α : Type} (p : α → Bool) (l₁ l₂ : List α)
    (h : ∀ x ∈ l₁, p x = false) : (l₁ ++ l₂).find? p = l₂.find? p := by
  induction l₁ with
  | nil => simp
  | cons a l ih =>
    rw [List.cons_append, List.find?_cons_of_neg _ (by simp [h a (by simp)])]
    exact ih (fun x hx => h x (by simp [hx]))

/-- C1: the identity token applied to the search session by `started()` is
`userTokenBeforeInit` when truthy, else `queuedUserToken` when truthy, else
the anonymous token (only when an analytics client is present), else the
session token is untouched.  The hypotheses record that no explicit runtime
`setUserToken` call happened before `started()` and that in disabled mode the
substituted no-op client yields neither a `getUserToken` callback value nor a
queue (both signals come through the client). -/
theorem token_precedence (env : StartedEnv) (w : World)
    (h0 : w.client.currentToken = none)
    (hnull : env.hasInsightsClient = false →
      env.userTokenBeforeInit = none ∧ env.queuedUserToken = none) :
    (runStarted env w).inst.helper.state.userToken =
      (if truthy env.userTokenBeforeInit then env.userTokenBeforeInit
       else if truthy env.queuedUserToken then env.queuedUserToken
       else if env.hasInsightsClient && truthy env.anonymousUserToken then
         env.anonymousUserToken
       else w.inst.helper.state.userToken) := by
  cases hic : env.hasInsightsClient with
  | false =>
    obtain ⟨h1, h2⟩ := hnull hic
    simp [runStarted, setUserTokenToSearch, scheduleSearch,
      overrideStateWithoutTriggeringChangeEvent, hic, h1, h2]
  | true =>
    cases ht : truthy env.userTokenBeforeInit <;>
    cases hq : truthy env.queuedUserToken <;>
    cases ha : truthy env.anonymousUserToken <;>
    simp only [runStarted, setUserTokenToSearch, scheduleSearch,
      overrideStateWithoutTriggeringChangeEvent, hic, ht, hq, ha, h0,
      Bool.true_and, if_true, if_false, Bool.false_eq_true, truthy_none]

/-- Closed witness for `token_precedence`: with all three signals present the
init-callback token wins. -/
theorem token_precedence_witness :
    (runStarted ⟨true, some "tbi", some "q", some "anon"⟩ sampleWorld).inst.helper.state.userToken
      = some "tbi" := by
  have h := token_precedence ⟨true, some "tbi", some "q", some "anon"⟩ sampleWorld
    rfl (by intro hcontra; cases hcontra)
  simpa [truthy] using h

/-- C2: the dispatch gateway delegates to a configured `onEvent` handler with
no validation and no client call; otherwise it drops the event with exactly one
warning when `insightsMethod` is missing or when the session `userToken` is
empty; otherwise it invokes the client binding exactly once with
`(insightsMethod, payload)`. -/
theorem gateway_dispatch (oe : Bool) (st : SearchState) (e : InsightsEvent) :
    (oe = true → dispatchEvent oe st e =
      { onEventCalls := [e], warningCount := 0, clientCalls := [] })
    ∧ (oe = false → truthy e.insightsMethod = false → dispatchEvent oe st e =
      { onEventCalls := [], warningCount := 1, clientCalls := [] })
    ∧ (oe = false → truthy e.insightsMethod = true → truthy st.userToken = false →
      dispatchEvent oe st e =
        { onEventCalls := [], warningCount := 1, clientCalls := [] })
    ∧ (oe = false → truthy e.insightsMethod = true → truthy st.userToken = true →
      dispatchEvent oe st e =
        { onEventCalls := [], warningCount := 0,
          clientCalls := [(e.insightsMethod.getD "", e.payload)] }) := by
  refine ⟨?_, ?_, ?_, ?_⟩ <;> intros <;> simp_all [dispatchEvent]

/-- Closed witness for `gateway_dispatch`: a valid event with a session token
produces exactly one client invocation. -/
theorem gateway_dispatch_witness :
    dispatchEvent false { userToken := some "u", clickAnalytics := some true, other := [] }
        { insightsMethod := some "clickedObjectIDs", payload := "p",
          widgetType := "ais.hits", eventType := "click" }
      = { onEventCalls := [], warningCount := 0,
          clientCalls := [("clickedObjectIDs", "p")] } := by
  have h := (gateway_dispatch false
    { userToken := some "u", clickAnalytics := some true, other := [] }
    { insightsMethod := some "clickedObjectIDs", payload := "p",
      widgetType := "ais.hits", eventType := "click" }).2.2.2 rfl rfl rfl
  simpa using h

/-- C3: a session starting as userToken u0, clickAnalytics false has
clickAnalytics true after started(), and unsubscribe() restores both fields
exactly, whatever the token signals were. -/
theorem snapshot_restore_roundtrip (env : StartedEnv) (w : World)
    (hu : w.inst.helper.state.userToken = some "u0")
    (hc : w.inst.helper.state.clickAnalytics = some false) :
    ((runStarted env w).inst.helper.state.clickAnalytics = some true)
    ∧ ((runUnsubscribe env.hasInsightsClient (runStarted env w)).inst.helper.state.userToken
        = some "u0")
    ∧ ((runUnsubscribe env.hasInsightsClient (runStarted env w)).inst.helper.state.clickAnalytics
        = some false) := by
  cases hic : env.hasInsightsClient <;>
  cases ht : truthy env.userTokenBeforeInit <;>
  cases hq : truthy env.queuedUserToken <;>
  cases ha : truthy env.anonymousUserToken <;>
  cases hw : truthy w.client.currentToken <;>
  simp [runStarted, runUnsubscribe, setUserTokenToSearch, scheduleSearch,
    overrideStateWithoutTriggeringChangeEvent, setState, hic, ht, hq, ha, hw, hu, hc]

/-- Closed witness for snapshot_restore_roundtrip on the sample world. -/
theorem snapshot_restore_roundtrip_witness :
    ((runStarted ⟨true, some "tbi", none, some "anon"⟩ sampleWorld).inst.helper.state.clickAnalytics
      = some true)
    ∧ ((runUnsubscribe true (runStarted ⟨true, some "tbi", none, some "anon"⟩
        sampleWorld)).inst.helper.state.userToken = some "u0")
    ∧ ((runUnsubscribe true (runStarted ⟨true, some "tbi", none, some "anon"⟩
        sampleWorld)).inst.helper.state.clickAnalytics = some false) :=
  snapshot_restore_roundtrip ⟨true, some "tbi", none, some "anon"⟩ sampleWorld rfl rfl

/-- C4: the queue scan selects the payload of the most recent setUserToken
entry (the one after which no further setUserToken entry occurs); on the
concrete queue of the spec it selects b; an absent queue, or a queue without a
setUserToken entry, yields no token rather than an error. -/
theorem queue_scan_most_recent :
    (∀ pre e suf, e.head? = some "setUserToken" →
      (∀ x ∈ suf, x.head? ≠ some "setUserToken") →
      scanQueue (some (pre ++ e :: suf)) = e.get? 1)
    ∧ (scanQueue (some [["setUserToken", "a"], ["other"], ["setUserToken", "b"]])
        = some "b")
    ∧ (scanQueue none = none)
    ∧ (∀ q, (∀ x ∈ q, x.head? ≠ some "setUserToken") → scanQueue (some q) = none) := by
  have key : ∀ pre e suf, e.head? = some "setUserToken" →
      (∀ x ∈ suf, x.head? ≠ some "setUserToken") →
      scanQueue (some (pre ++ e :: suf)) = e.get? 1 := by
    intro pre e suf he hsuf
    have hrev : (pre ++ e :: suf).reverse = suf.reverse ++ e :: pre.reverse := by
      simp
    have hnone : ∀ x ∈ suf.reverse, (x.head? == some "setUserToken") = false := by
      intro x hx
      simpa using hsuf x (List.mem_reverse.mp hx)
    simp only [scanQueue, hrev, find?_append_of_none _ _ _ hnone]
    rw [List.find?_cons_of_pos _ (by simp [he])]
  refine ⟨key, ?_, rfl, ?_⟩
  · have h := key [["setUserToken", "a"], ["other"]] ["setUserToken", "b"] []
      rfl (by intro x hx; cases hx)
    simpa using h
  · intro q hq
    have hnone : ∀ x ∈ q.reverse, (fun e => e.head? == some "setUserToken") x = false := by
      intro x hx
      simpa using hq x (List.mem_reverse.mp hx)
    simp only [scanQueue]
    rw [List.find?_eq_none.mpr (fun x hx => by simpa using hq x (List.mem_reverse.mp hx))]

/-- Closed witness for queue_scan_most_recent: the general most-recent clause
applied to the concrete queue of the spec. -/
theorem queue_scan_most_recent_witness :
    scanQueue (some [["setUserToken", "a"], ["other"], ["setUserToken", "b"]])
      = ["setUserToken", "b"].get? 1 :=
  queue_scan_most_recent.1 [["setUserToken", "a"], ["other"]] ["setUserToken", "b"] []
    rfl (by intro x hx; cases hx)

/-- C5: across started() the generic change-notification path never fires (the
notification count is unchanged), and the number of scheduleSearch requests it
makes equals the number of non-notifying state overrides it performs; moreover
the runtime token-change path (setUserTokenToSearch) performs exactly one
non-notifying override followed by exactly one scheduleSearch request and no
notification. -/
theorem no_notify_mutation (env : StartedEnv) (w : World) :
    ((runStarted env w).inst.helper.notifyCount = w.inst.helper.notifyCount)
    ∧ ((runStarted env w).inst.scheduleSearchCount + w.inst.helper.overrideCount
        = (runStarted env w).inst.helper.overrideCount + w.inst.scheduleSearchCount)
    ∧ (∀ inst t,
        (setUserTokenToSearch inst t).helper.notifyCount = inst.helper.notifyCount
        ∧ (setUserTokenToSearch inst t).scheduleSearchCount
            = inst.scheduleSearchCount + 1
        ∧ (setUserTokenToSearch inst t).helper.overrideCount
            = inst.helper.overrideCount + 1) := by
  refine ⟨?_, ?_, ?_⟩
  · cases hic : env.hasInsightsClient <;>
    cases ht : truthy env.userTokenBeforeInit <;>
    cases hq : truthy env.queuedUserToken <;>
    cases ha : truthy env.anonymousUserToken <;>
    cases hw : truthy w.client.currentToken <;>
    simp [runStarted, setUserTokenToSearch, scheduleSearch,
      overrideStateWithoutTriggeringChangeEvent, hic, ht, hq, ha, hw]
  · cases hic : env.hasInsightsClient <;>
    cases ht : truthy env.userTokenBeforeInit <;>
    cases hq : truthy env.queuedUserToken <;>
    cases ha : truthy env.anonymousUserToken <;>
    cases hw : truthy w.client.currentToken <;>
    simp [runStarted, setUserTokenToSearch, scheduleSearch,
      overrideStateWithoutTriggeringChangeEvent, hic, ht, hq, ha, hw] <;>
    omega
  · intro inst t
    refine ⟨rfl, rfl, rfl⟩

/-- C6: after unsubscribe() the installed dispatch slot is the no-op, and
invoking the no-op slot on any event delegates nothing, warns nothing, and
never reaches the analytics client (it is a total function, hence raises no
exception). -/
theorem post_teardown_inert (hasInsightsClient : Bool) (w : World) :
    ((runUnsubscribe hasInsightsClient w).inst.sendEventSlot = EventSlot.noopSlot)
    ∧ (∀ oe st e, invokeSlot EventSlot.noopSlot oe st e
        = { onEventCalls := [], warningCount := 0, clientCalls := [] }) := by
  constructor
  · cases hcap : w.mw.helperCaptured <;>
    cases hsnap : w.mw.initialParameters <;>
    simp [runUnsubscribe, scheduleSearch, setState, hcap, hsnap]
  · intro oe st e
    rfl

/-- C7: construction raises exactly when the insightsClient option is
genuinely absent; an explicit null does not raise and selects the disabled
no-op mode (hasInsightsClient false, so the no-op client is substituted for
every analytics-client invocation); a present client does not raise. -/
theorem client_option_raises_iff :
    (∃ m, createInsightsMiddleware InsightsClientOption.absent = Except.error m)
    ∧ (∀ q, createInsightsMiddleware (InsightsClientOption.present q)
        = Except.ok (true, scanQueue q))
    ∧ (createInsightsMiddleware InsightsClientOption.nullClient
        = Except.ok (false, none)) :=
  ⟨⟨_, rfl⟩, fun _ => rfl, rfl⟩

/-- C8 counterexample: in a production build (the build-time DEV flag false),
a search client from which no credentials can be extracted does NOT make setup
throw — the check is guarded by the DEV flag (source line 66), so setup
proceeds, contradicting the claim that unextractable credentials always raise
a synchronous fatal error. -/
theorem credentials_not_fatal_in_prod :
    checkCredentials false none none = Except.ok () := rfl

/-- C8 amended: in development builds (the DEV flag true), setup raises a
synchronous error whenever the credential pair cannot be extracted (either
part missing or empty). -/
theorem credentials_fatal_in_dev (appId apiKey : Option String)
    (h : (truthy appId && truthy apiKey) = false) :
    ∃ m, checkCredentials true appId apiKey = Except.error m := by
  refine ⟨"insights middleware: could not extract Algolia credentials from searchClient", ?_⟩
  simp [checkCredentials, h]

/-- Closed witness for credentials_fatal_in_dev at a concrete unextractable
input. -/
theorem credentials_fatal_in_dev_witness :
    ∃ m, checkCredentials true none none = Except.error m :=
  credentials_fatal_in_dev none none rfl

/-- C9: unsubscribe() always clears the runtime token-change listener (a no-op
on the substituted no-op client, which it leaves untouched) and always
installs the no-op dispatch slot; it restores the snapshot through the
notifying path and schedules exactly one search precisely when both the
captured helper reference and the snapshot exist; when either is missing it
leaves the helper completely untouched and schedules nothing (and, being a
total function, raises no error). -/
theorem conditional_teardown_restore (hasInsightsClient : Bool) (w : World) :
    ((runUnsubscribe hasInsightsClient w).inst.sendEventSlot = EventSlot.noopSlot)
    ∧ (hasInsightsClient = true →
        (runUnsubscribe hasInsightsClient w).client
          = { w.client with listener := false })
    ∧ (hasInsightsClient = false →
        (runUnsubscribe hasInsightsClient w).client = w.client)
    ∧ (w.mw.helperCaptured = false ∨ w.mw.initialParameters = none →
        (runUnsubscribe hasInsightsClient w).inst.helper = w.inst.helper
        ∧ (runUnsubscribe hasInsightsClient w).inst.scheduleSearchCount
            = w.inst.scheduleSearchCount)
    ∧ (∀ snap, w.mw.helperCaptured = true → w.mw.initialParameters = some snap →
        (runUnsubscribe hasInsightsClient w).inst.helper.state
          = { w.inst.helper.state with
              userToken := snap.userToken, clickAnalytics := snap.clickAnalytics }
        ∧ (runUnsubscribe hasInsightsClient w).inst.scheduleSearchCount
            = w.inst.scheduleSearchCount + 1
        ∧ (runUnsubscribe hasInsightsClient w).inst.helper.notifyCount
            = w.inst.helper.notifyCount + 1) := by
  refine ⟨?_, ?_, ?_, ?_, ?_⟩
  · cases hcap : w.mw.helperCaptured <;>
    cases hsnap : w.mw.initialParameters <;>
    simp [runUnsubscribe, scheduleSearch, setState, hcap, hsnap]
  · intro h
    cases hcap : w.mw.helperCaptured <;>
    cases hsnap : w.mw.initialParameters <;>
    simp [runUnsubscribe, scheduleSearch, setState, h, hcap, hsnap]
  · intro h
    cases hcap : w.mw.helperCaptured <;>
    cases hsnap : w.mw.initialParameters <;>
    simp [runUnsubscribe, scheduleSearch, setState, h, hcap, hsnap]
  · intro h
    rcases h with h | h <;>
    [ (cases hsnap : w.mw.initialParameters <;>
        simp [runUnsubscribe, scheduleSearch, setState, h, hsnap]);
      (cases hcap : w.mw.helperCaptured <;>
        simp [runUnsubscribe, scheduleSearch, setState, h, hcap]) ]
  · intro snap hcap hsnap
    simp [runUnsubscribe, scheduleSearch, setState, hcap, hsnap]

/-- Closed witness for conditional_teardown_restore: a started world with a
captured snapshot is restored with one scheduled search and one notification. -/
theorem conditional_teardown_restore_witness :
    (runUnsubscribe true
      { inst :=
          { helper :=
              { state := { userToken := some "t", clickAnalytics := some true, other := [] },
                notifyCount := 0, overrideCount := 2 },
            scheduleSearchCount := 2, sendEventSlot := EventSlot.gateway },
        client := { currentToken := some "t", listener := true },
        mw := { helperCaptured := true,
                initialParameters := some { userToken := some "u0", clickAnalytics := some false } } }).inst.helper.state
      = { userToken := some "u0", clickAnalytics := some false, other := [] } := by
  have h := (conditional_teardown_restore true
    { inst :=
        { helper :=
            { state := { userToken := some "t", clickAnalytics := some true, other := [] },
              notifyCount := 0, overrideCount := 2 },
          scheduleSearchCount := 2, sendEventSlot := EventSlot.gateway },
      client := { currentToken := some "t", listener := true },
      mw := { helperCaptured := true,
              initialParameters := some { userToken := some "u0", clickAnalytics := some false } } }).2.2.2.2
    { userToken := some "u0", clickAnalytics := some false } rfl rfl
  simpa using h.1

/-- C10: in disabled mode (insightsClient null, so hasInsightsClient is
false), started() leaves the session userToken and every other search
parameter unchanged, sets clickAnalytics to true as its only session change,
and leaves the no-op client untouched (in particular no token-change listener
ever becomes active, so it can never fire). -/
theorem disabled_mode_frame (env : StartedEnv) (w : World)
    (h : env.hasInsightsClient = false) :
    ((runStarted env w).inst.helper.state.userToken = w.inst.helper.state.userToken)
    ∧ ((runStarted env w).inst.helper.state.other = w.inst.helper.state.other)
    ∧ ((runStarted env w).inst.helper.state.clickAnalytics = some true)
    ∧ ((runStarted env w).client = w.client) := by
  refine ⟨?_, ?_, ?_, ?_⟩ <;>
  simp [runStarted, setUserTokenToSearch, scheduleSearch,
    overrideStateWithoutTriggeringChangeEvent, h]

/-- Closed witness for disabled_mode_frame: the sample world in disabled mode
with an anonymous token available. -/
theorem disabled_mode_frame_witness :
    ((runStarted ⟨false, none, none, some "anon"⟩ sampleWorld).inst.helper.state.userToken
      = sampleWorld.inst.helper.state.userToken)
    ∧ ((runStarted ⟨false, none, none, some "anon"⟩ sampleWorld).inst.helper.state.other
      = sampleWorld.inst.helper.state.other)
    ∧ ((runStarted ⟨false, none, none, some "anon"⟩ sampleWorld).inst.helper.state.clickAnalytics
      = some true)
    ∧ ((runStarted ⟨false, none, none, some "anon"⟩ sampleWorld).client
      = sampleWorld.client) :=
  disabled_mode_frame ⟨false, none, none, some "anon"⟩ sampleWorld rfl

end InsightsMiddleware
